import Mathlib

/-!
Shallow embedding of the SEO scoring engine of Friendly_SeoScanner
(`analyzeSEO` in server/routes.ts, lines 332-811).

The HTML/CSS extraction layer (cheerio selectors, substring scans over
inline style sheets) is out of scope of the scoring engine: its outputs
are modelled as the fields of `SEOInput` (optional attribute strings and
the boolean style heuristics), exactly the local variables the source
derives before any scoring logic runs.  JavaScript string truthiness
(`undefined` and the empty string are falsy) is made explicit through
`jsTruthy`, `jsOrString` and `jsOrInt`.
-/

namespace SeoScanner

/-- The three-valued status tag `"good" | "warning" | "error"` used all
over routes.ts. -/
inductive Status where
  | good
  | warning
  | error
deriving DecidableEq, Repr

/-- JS truthiness of an optional attribute string: `undefined` and `""`
are falsy, every other string is truthy. -/
def jsTruthy : Option String → Bool
  | none => false
  | some s => s != ""

/-- JS `String.prototype.trim()` as used on the title text
(routes.ts line 344): strip leading and trailing whitespace, modelled
on the character list so it stays executable. -/
def jsTrim (s : String) : String :=
  String.mk (((s.data.dropWhile Char.isWhitespace).reverse.dropWhile
    Char.isWhitespace).reverse)

/-- JS `x || d` on an optional string (routes.ts uses it as
`attr(...) || ''` and `robots || "index, follow"`). -/
def jsOrString : Option String → String → String
  | none, d => d
  | some s, d => if s = "" then d else s

/-- JS `x || d` on an optional number: `undefined` and `0` are falsy
(routes.ts lines 717-718: `resourceSize || 0`, `requestCount || 1`). -/
def jsOrInt : Option Int → Int → Int
  | none, d => d
  | some n, d => if n = 0 then d else n

/-- A per-field verdict: content, status and feedback string
(the `titleTag` / `descriptionTag` shape of the result). -/
structure FieldVerdict where
  content : String
  status : Status
  feedback : String
deriving DecidableEq, Repr

/-- The Open Graph block of the result (routes.ts lines 769-777). -/
structure OGTags where
  title : String
  description : String
  image : String
  url : String
  type : String
  status : Status
  feedback : String
deriving DecidableEq, Repr

/-- The Twitter Card block of the result (routes.ts lines 779-786). -/
structure TwitterTags where
  card : String
  title : String
  description : String
  image : String
  status : Status
  feedback : String
deriving DecidableEq, Repr

/-- The page speed block of the result (routes.ts lines 789-795). -/
structure PageSpeed where
  loadTime : Int
  resourceSize : Int
  requestCount : Int
  status : Status
  feedback : String
deriving DecidableEq, Repr

/-- The mobile friendliness block of the result (routes.ts lines 797-806). -/
structure MobileFriendliness where
  score : Nat
  status : Status
  viewport : Bool
  responsiveDesign : Bool
  touchElements : Bool
  fontReadability : Bool
  mediaQueries : Bool
  feedback : String
deriving DecidableEq, Repr

/-- One row of the additional-meta-tags table (routes.ts lines 413-418). -/
structure MetaTagRow where
  type : String
  content : Option String
  status : Status
  recommendation : String
deriving DecidableEq, Repr

/-- One generated recommendation (routes.ts lines 562-567). -/
structure Recommendation where
  title : String
  description : String
  status : Status
  exampleCode : Option String
deriving DecidableEq, Repr

/-- The optional `pageSpeedData` argument of `analyzeSEO`
(routes.ts lines 335-339). -/
structure PageSpeedData where
  loadTime : Int
  resourceSize : Option Int
  requestCount : Option Int
deriving DecidableEq, Repr

/-- The full analysis result returned by `analyzeSEO`
(routes.ts lines 750-810). -/
structure SEOAnalysis where
  url : String
  title : String
  description : String
  tagCount : Nat
  score : Int
  titleTag : FieldVerdict
  descriptionTag : FieldVerdict
  ogTags : OGTags
  twitterTags : TwitterTags
  pageSpeed : PageSpeed
  mobileFriendliness : MobileFriendliness
  metaTags : List MetaTagRow
  recommendations : List Recommendation
deriving DecidableEq, Repr

/-- The extraction-layer outputs `analyzeSEO` computes with cheerio
before any scoring: the raw `<title>` text, the optional attribute
values of the relevant meta/link tags, the boolean style-sheet
heuristics (routes.ts lines 476-530), the total `<meta>` count, and the
optional page speed data argument. -/
structure SEOInput where
  titleText : String
  description : Option String
  ogTitle : Option String
  ogDescription : Option String
  ogImage : Option String
  ogUrl : Option String
  ogType : Option String
  twitterCard : Option String
  twitterTitle : Option String
  twitterDescription : Option String
  twitterImage : Option String
  keywords : Option String
  canonical : Option String
  robots : Option String
  viewport : Option String
  hasMediaQueries : Bool
  hasTouchElements : Bool
  hasFontReadability : Bool
  hasFlexbox : Bool
  hasGrid : Bool
  hasResponsiveImage : Bool
  allMetaTags : Nat
  pageSpeedData : Option PageSpeedData
deriving DecidableEq, Repr

/-- Title analysis (routes.ts lines 344-358): `title` is the trimmed
`<title>` text, classified by its length. -/
def titleVerdictOf (title : String) : FieldVerdict :=
  let titleLength := title.length
  if titleLength = 0 then
    { content := title, status := Status.error,
      feedback := "Missing title tag. Search engines use this as the main headline." }
  else if titleLength < 30 then
    { content := title, status := Status.warning,
      feedback := "Your title is too short at " ++ toString titleLength ++
        " characters (recommended 50-60 characters)." }
  else if titleLength > 60 then
    { content := title, status := Status.warning,
      feedback := "Your title is too long at " ++ toString titleLength ++
        " characters (recommended 50-60 characters)." }
  else
    { content := title, status := Status.good,
      feedback := "Great! Your title is an optimal length." }

/-- Description analysis (routes.ts lines 361-375): the
`meta[name=description]` content (defaulted to `""`), classified by its
length with thresholds 0 / 120 / 160. -/
def descriptionVerdictOf (description : String) : FieldVerdict :=
  let descriptionLength := description.length
  if descriptionLength = 0 then
    { content := description, status := Status.error,
      feedback := "Missing meta description. This is important for search result snippets." }
  else if descriptionLength < 120 then
    { content := description, status := Status.warning,
      feedback := "Your description is too short at " ++ toString descriptionLength ++
        " characters (recommended 120-160 characters)." }
  else if descriptionLength > 160 then
    { content := description, status := Status.warning,
      feedback := "Your description is too long at " ++ toString descriptionLength ++
        " characters (recommended 120-160 characters)." }
  else
    { content := description, status := Status.good,
      feedback := "Great! Your description is an optimal length." }

/-- Open Graph status (routes.ts lines 384-393): the three essential
values (title, description, image, each already defaulted to `""`) are
tested with JS truthiness; `og:url` and `og:type` are not consulted. -/
def ogStatusOf (ogTitle ogDescription ogImage : String) : Status :=
  if ogTitle = "" ∧ ogDescription = "" ∧ ogImage = "" then Status.error
  else if ogTitle = "" ∨ ogDescription = "" ∨ ogImage = "" then Status.warning
  else Status.good

/-- Open Graph feedback string, same branches as `ogStatusOf`. -/
def ogFeedbackOf (ogTitle ogDescription ogImage : String) : String :=
  if ogTitle = "" ∧ ogDescription = "" ∧ ogImage = "" then
    "No Open Graph tags found. Adding these tags improves how your content appears when shared on social media."
  else if ogTitle = "" ∨ ogDescription = "" ∨ ogImage = "" then
    "Some Open Graph tags are missing. Complete the set for better social sharing."
  else
    "All essential Open Graph tags are present."

/-- Twitter Card status (routes.ts lines 401-410): all four extracted
values participate. -/
def twitterStatusOf (card title description image : String) : Status :=
  if card = "" ∧ title = "" ∧ description = "" ∧ image = "" then Status.error
  else if card = "" ∨ title = "" ∨ description = "" ∨ image = "" then Status.warning
  else Status.good

/-- Twitter Card feedback string, same branches as `twitterStatusOf`. -/
def twitterFeedbackOf (card title description image : String) : String :=
  if card = "" ∧ title = "" ∧ description = "" ∧ image = "" then
    "No Twitter Card tags found. These tags control how your content appears when shared on Twitter."
  else if card = "" ∨ title = "" ∨ description = "" ∨ image = "" then
    "Some Twitter Card tags are missing. Complete the set for better Twitter sharing."
  else
    "All essential Twitter Card tags are present."

/-- Mobile friendliness score (routes.ts lines 534-540): weighted sum
of the five boolean heuristics. -/
def mobileScoreOf (hasViewport hasResponsiveDesign hasTouchElements
    hasFontReadability hasMediaQueries : Bool) : Nat :=
  (if hasViewport then 40 else 0) +
  (if hasResponsiveDesign then 25 else 0) +
  (if hasTouchElements then 15 else 0) +
  (if hasFontReadability then 10 else 0) +
  (if hasMediaQueries then 10 else 0)

/-- Mobile friendliness status bands (routes.ts lines 542-547). -/
def mobileStatusOf (mobileScore : Nat) : Status :=
  if mobileScore ≥ 80 then Status.good
  else if mobileScore ≥ 50 then Status.warning
  else Status.error

/-- Mobile friendliness feedback bands (routes.ts lines 549-559). -/
def mobileFeedbackOf (mobileScore : Nat) : String :=
  if mobileScore ≥ 90 then
    "Excellent! Your website appears to be very mobile-friendly."
  else if mobileScore ≥ 80 then
    "Good! Your website has most of the elements needed for mobile users."
  else if mobileScore ≥ 50 then
    "Needs improvement. Your site has some mobile-friendly elements, but could be better optimized."
  else
    "Major improvements needed. Your site doesn\x27t appear to be optimized for mobile devices."

/-- Overall score (routes.ts lines 682-699): start at 100 and apply the
independent deductions; the source mutates a running total with one
`score -= k` per guard, written here as the corresponding chain of
subtractions in the same order, then clamps with
`Math.max(0, Math.min(100, score))`. -/
def computeScore (titleStatus descriptionStatus ogStatus twitterStatus : Status)
    (hasCanonical hasViewport : Bool) (mobileScore : Nat) : Int :=
  max 0 (min 100 ((100 : Int)
    - (if titleStatus = Status.warning then 5 else 0)
    - (if titleStatus = Status.error then 15 else 0)
    - (if descriptionStatus = Status.warning then 5 else 0)
    - (if descriptionStatus = Status.error then 15 else 0)
    - (if ogStatus = Status.warning then 10 else 0)
    - (if ogStatus = Status.error then 15 else 0)
    - (if twitterStatus = Status.warning then 10 else 0)
    - (if twitterStatus = Status.error then 15 else 0)
    - (if hasCanonical then 0 else 10)
    - (if hasViewport then 0 else 10)
    - (if mobileScore < 50 then 15 else if mobileScore < 80 then 8 else 0)))

/-- Page speed status (routes.ts lines 722-729): loadTime above 3000 ms
is an error, above 1500 ms a warning, otherwise good. -/
def pageSpeedStatusOf (loadTime : Int) : Status :=
  if loadTime > 3000 then Status.error
  else if loadTime > 1500 then Status.warning
  else Status.good

/-- Page speed feedback string, same branches as `pageSpeedStatusOf`. -/
def pageSpeedFeedbackOf (loadTime : Int) : String :=
  if loadTime > 3000 then "Page load time is slow. Consider optimizing resources."
  else if loadTime > 1500 then "Page load time is acceptable but could be improved."
  else "Your page loads quickly and efficiently."

/-- The additional-meta-tags table (routes.ts lines 413-470): six rows
pushed in fixed order; presence tests are JS truthiness on the raw
attribute values. -/
def buildMetaTags (titleTag descriptionTag : FieldVerdict)
    (keywords canonical robots viewport : Option String) : List MetaTagRow :=
  [ { type := "Title", content := some titleTag.content,
      status := titleTag.status, recommendation := titleTag.feedback },
    { type := "Meta Description", content := some descriptionTag.content,
      status := descriptionTag.status, recommendation := descriptionTag.feedback },
    { type := "Meta Keywords", content := keywords,
      status := if jsTruthy keywords then Status.warning else Status.error,
      recommendation := "Not critical for rankings but can be added" },
    { type := "Canonical URL", content := canonical,
      status := if jsTruthy canonical then Status.good else Status.error,
      recommendation := if jsTruthy canonical then "No change needed"
        else "Add a canonical URL to prevent duplicate content issues" },
    { type := "Robots Meta", content := some (jsOrString robots "index, follow"),
      status := if jsTruthy robots then Status.good else Status.warning,
      recommendation := if jsTruthy robots then "No change needed"
        else "Consider adding robots meta tag for explicit crawl instructions" },
    { type := "Viewport", content := viewport,
      status := if jsTruthy viewport then Status.good else Status.error,
      recommendation := if jsTruthy viewport then "No change needed"
        else "Add viewport meta tag for mobile responsiveness" } ]

/-- The fixed Open Graph recommendation (routes.ts lines 570-581). -/
def recOpenGraph : Recommendation :=
  { title := "Add Open Graph Tags",
    description := "Open Graph metadata improves the way your content appears when shared on social platforms like Facebook, LinkedIn, and others.",
    status := Status.warning,
    exampleCode := some "<meta property=\"og:title\" content=\"Your Page Title\" />\n<meta property=\"og:description\" content=\"Your page description...\" />\n<meta property=\"og:image\" content=\"https://yourdomain.com/image.jpg\" />\n<meta property=\"og:url\" content=\"https://yourdomain.com/page\" />\n<meta property=\"og:type\" content=\"website\" />" }

/-- The fixed Twitter Card recommendation (routes.ts lines 584-594). -/
def recTwitter : Recommendation :=
  { title := "Add Twitter Card Tags",
    description := "Twitter Card tags ensure your content looks great when shared on Twitter with rich images and properly formatted text.",
    status := Status.warning,
    exampleCode := some "<meta name=\"twitter:card\" content=\"summary_large_image\" />\n<meta name=\"twitter:title\" content=\"Your Page Title\" />\n<meta name=\"twitter:description\" content=\"Your page description...\" />\n<meta name=\"twitter:image\" content=\"https://yourdomain.com/image.jpg\" />" }

/-- The fixed canonical URL recommendation (routes.ts lines 597-604). -/
def recCanonical : Recommendation :=
  { title := "Add Canonical URL",
    description := "A canonical URL helps prevent duplicate content issues by specifying the preferred version of a page.",
    status := Status.warning,
    exampleCode := some "<link rel=\"canonical\" href=\"https://yourdomain.com/page\" />" }

/-- The fixed description length recommendation (routes.ts lines 607-613). -/
def recDescriptionLength : Recommendation :=
  { title := "Meta Description Length",
    description := "Consider extending your meta description to between 120-160 characters to maximize visibility in search results.",
    status := Status.warning,
    exampleCode := none }

/-- The fixed viewport recommendation (routes.ts lines 616-623). -/
def recViewport : Recommendation :=
  { title := "Add Viewport Meta Tag",
    description := "The viewport meta tag is essential for responsive design. It ensures your website displays correctly on all devices.",
    status := Status.error,
    exampleCode := some "<meta name=\"viewport\" content=\"width=device-width, initial-scale=1.0\">" }

/-- The fixed responsive design recommendation (routes.ts lines 625-643). -/
def recResponsiveDesign : Recommendation :=
  { title := "Implement Responsive Design",
    description := "Your site doesn\x27t appear to use responsive design techniques like flexbox, grid, or media queries. These are essential for mobile optimization.",
    status := Status.warning,
    exampleCode := some "/* Use responsive units */\n.container \x7b\n  display: flex;\n  flex-wrap: wrap;\n\x7d\n\n/* Add media queries */\n@media (max-width: 768px) \x7b\n  .column \x7b\n    width: 100%;\n  \x7d\n\x7d" }

/-- The fixed touch optimization recommendation (routes.ts lines 645-658). -/
def recTouch : Recommendation :=
  { title := "Optimize for Touch Devices",
    description := "Ensure interactive elements are large enough for touch interactions. Use appropriate spacing for touch targets.",
    status := Status.warning,
    exampleCode := some "/* Make buttons touch-friendly */\n.button \x7b\n  min-height: 44px;\n  min-width: 44px;\n  padding: 12px 16px;\n  touch-action: manipulation;\n\x7d" }

/-- The fixed font readability recommendation (routes.ts lines 660-676). -/
def recFontReadability : Recommendation :=
  { title := "Improve Font Readability",
    description := "Use relative font units like \x27em\x27 or \x27rem\x27 instead of fixed pixel sizes to ensure text scales properly on all devices.",
    status := Status.warning,
    exampleCode := some "/* Use relative font units */\nbody \x7b\n  font-size: 16px; /* Base size */\n\x7d\nh1 \x7b\n  font-size: 2rem; /* Relative to root */\n\x7d\np \x7b\n  font-size: 1em; /* Relative to parent */\n\x7d" }

/-- The page speed recommendation (routes.ts lines 732-748), carrying
the page speed status itself. -/
def recPageSpeed (pageSpeedStatus : Status) : Recommendation :=
  { title := "Improve Page Speed",
    description := "Fast loading times are crucial for user experience and SEO. Consider optimizing images, minifying CSS/JS, and using browser caching.",
    status := pageSpeedStatus,
    exampleCode := some "<!-- Enable browser caching -->\n<IfModule mod_expires.c>\n  ExpiresActive On\n  ExpiresByType image/jpg \"access plus 1 year\"\n  ExpiresByType image/jpeg \"access plus 1 year\"\n  ExpiresByType image/gif \"access plus 1 year\"\n  ExpiresByType image/png \"access plus 1 year\"\n  ExpiresByType text/css \"access plus 1 month\"\n  ExpiresByType application/javascript \"access plus 1 month\"\n</IfModule>" }

/-- The recommendation list (routes.ts lines 562-676 and 732-748): nine
gated rules appended in fixed source order. -/
def buildRecommendations (ogStatus twitterStatus : Status) (hasCanonical : Bool)
    (descriptionStatus : Status) (descriptionLength : Nat)
    (hasViewport hasResponsiveDesign hasTouchElements hasFontReadability : Bool)
    (pageSpeedStatus : Status) : List Recommendation :=
  (if ogStatus ≠ Status.good then [recOpenGraph] else []) ++
  (if twitterStatus ≠ Status.good then [recTwitter] else []) ++
  (if !hasCanonical then [recCanonical] else []) ++
  (if descriptionStatus = Status.warning ∧ descriptionLength < 120 then [recDescriptionLength] else []) ++
  (if !hasViewport then [recViewport] else []) ++
  (if !hasResponsiveDesign then [recResponsiveDesign] else []) ++
  (if !hasTouchElements then [recTouch] else []) ++
  (if !hasFontReadability then [recFontReadability] else []) ++
  (if pageSpeedStatus ≠ Status.good then [recPageSpeed pageSpeedStatus] else [])

/-- The scoring engine `analyzeSEO` (routes.ts lines 332-811) as a pure
total function from the extraction-layer outputs to the analysis
result.  Every local follows the source line by line: the trimmed
title, the `|| ''` defaulting of attribute strings, the derived
`hasResponsiveDesign` disjunction, the substituted default page speed
data when the argument is missing, and the assembled result record. -/
def analyzeSEO (url : String) (input : SEOInput) : SEOAnalysis :=
  let title := jsTrim input.titleText
  let description := jsOrString input.description ""
  let titleTag := titleVerdictOf title
  let descriptionTag := descriptionVerdictOf description
  let ogTitle := jsOrString input.ogTitle ""
  let ogDescription := jsOrString input.ogDescription ""
  let ogImage := jsOrString input.ogImage ""
  let ogUrl := jsOrString input.ogUrl ""
  let ogType := jsOrString input.ogType ""
  let ogStatus := ogStatusOf ogTitle ogDescription ogImage
  let twitterCard := jsOrString input.twitterCard ""
  let twitterTitle := jsOrString input.twitterTitle ""
  let twitterDescription := jsOrString input.twitterDescription ""
  let twitterImage := jsOrString input.twitterImage ""
  let twitterStatus := twitterStatusOf twitterCard twitterTitle twitterDescription twitterImage
  let hasViewport := jsTruthy input.viewport
  let hasResponsiveDesign :=
    input.hasFlexbox || input.hasGrid || input.hasResponsiveImage || input.hasMediaQueries
  let mobileScore := mobileScoreOf hasViewport hasResponsiveDesign
    input.hasTouchElements input.hasFontReadability input.hasMediaQueries
  let score := computeScore titleTag.status descriptionTag.status ogStatus twitterStatus
    (jsTruthy input.canonical) (jsTruthy input.viewport) mobileScore
  let pageSpeedData := input.pageSpeedData.getD
    { loadTime := 2000, resourceSize := some 500, requestCount := some 1 }
  let loadTime := pageSpeedData.loadTime
  let resourceSize := jsOrInt pageSpeedData.resourceSize 0
  let requestCount := jsOrInt pageSpeedData.requestCount 1
  let pageSpeedStatus := pageSpeedStatusOf loadTime
  { url := url
    title := title
    description := description
    tagCount := input.allMetaTags
    score := score
    titleTag := titleTag
    descriptionTag := descriptionTag
    ogTags := { title := ogTitle, description := ogDescription, image := ogImage,
                url := ogUrl, type := ogType, status := ogStatus,
                feedback := ogFeedbackOf ogTitle ogDescription ogImage }
    twitterTags := { card := twitterCard, title := twitterTitle,
                     description := twitterDescription, image := twitterImage,
                     status := twitterStatus,
                     feedback := twitterFeedbackOf twitterCard twitterTitle
                       twitterDescription twitterImage }
    pageSpeed := { loadTime := loadTime, resourceSize := resourceSize,
                   requestCount := requestCount, status := pageSpeedStatus,
                   feedback := pageSpeedFeedbackOf loadTime }
    mobileFriendliness := { score := mobileScore, status := mobileStatusOf mobileScore,
                            viewport := hasViewport,
                            responsiveDesign := hasResponsiveDesign,
                            touchElements := input.hasTouchElements,
                            fontReadability := input.hasFontReadability,
                            mediaQueries := input.hasMediaQueries,
                            feedback := mobileFeedbackOf mobileScore }
    metaTags := buildMetaTags titleTag descriptionTag
      input.keywords input.canonical input.robots input.viewport
    recommendations := buildRecommendations ogStatus twitterStatus
      (jsTruthy input.canonical) descriptionTag.status description.length
      hasViewport hasResponsiveDesign input.hasTouchElements
      input.hasFontReadability pageSpeedStatus }

/-- The deduction table exactly as the spec states it: title warning 5,
error 15; description warning 5, error 15; Open Graph warning 10, error
15; Twitter warning 10, error 15; canonical absent 10; viewport absent
10; mobile sub-score below 50 costs 15, else below 80 costs 8. -/
def specDeductions (titleStatus descriptionStatus ogStatus twitterStatus : Status)
    (hasCanonical hasViewport : Bool) (mobileScore : Nat) : Int :=
  (if titleStatus = Status.error then 15
    else if titleStatus = Status.warning then 5 else 0) +
  (if descriptionStatus = Status.error then 15
    else if descriptionStatus = Status.warning then 5 else 0) +
  (if ogStatus = Status.error then 15
    else if ogStatus = Status.warning then 10 else 0) +
  (if twitterStatus = Status.error then 15
    else if twitterStatus = Status.warning then 10 else 0) +
  (if hasCanonical then 0 else 10) +
  (if hasViewport then 0 else 10) +
  (if mobileScore < 50 then 15 else if mobileScore < 80 then 8 else 0)

/-- The two deduction guards of one status variable are mutually
exclusive, so together they behave like the single branched deduction
of `specDeductions`. -/
theorem status_pair (s : Status) (a b : Int) :
    (if s = Status.warning then a else 0) + (if s = Status.error then b else 0) =
      (if s = Status.error then b else if s = Status.warning then a else 0) := by
  rcases s <;> simp

/-- Bounds on the pair of deduction guards of one status variable. -/
theorem status_facts (s : Status) (a b : Int) (ha : 0 ≤ a) (hb : 0 ≤ b) (hab : a ≤ b) :
    0 ≤ (if s = Status.warning then a else 0) ∧
    0 ≤ (if s = Status.error then b else 0) ∧
    (if s = Status.warning then a else 0) + (if s = Status.error then b else 0) ≤ b := by
  rcases s <;> simp <;> omega

/-- Shared bound on the source score computation: it always lies in
[5, 100], since the deductions sum to at most 95. -/
theorem computeScore_bounds (ts ds os ws : Status) (hc hv : Bool) (m : Nat) :
    5 ≤ computeScore ts ds os ws hc hv m ∧ computeScore ts ds os ws hc hv m ≤ 100 := by
  unfold computeScore
  have h1 := status_facts ts 5 15 (by omega) (by omega) (by omega)
  have h2 := status_facts ds 5 15 (by omega) (by omega) (by omega)
  have h3 := status_facts os 10 15 (by omega) (by omega) (by omega)
  have h4 := status_facts ws 10 15 (by omega) (by omega) (by omega)
  have h5 : (0:Int) ≤ (if hc then (0:Int) else 10) ∧ (if hc then (0:Int) else 10) ≤ 10 := by
    rcases hc <;> simp
  have h6 : (0:Int) ≤ (if hv then (0:Int) else 10) ∧ (if hv then (0:Int) else 10) ≤ 10 := by
    rcases hv <;> simp
  omega

/-- C1: for every combination of field verdicts the overall score equals
`max(0, min(100, 100 - sum of deductions))` with the spec deduction
table, and the spec example (title error, description good, OG error,
Twitter good, canonical absent, viewport present, mobile score 90)
yields exactly 60. -/
theorem overall_score_formula :
    (∀ (ts ds os ws : Status) (hc hv : Bool) (m : Nat),
      computeScore ts ds os ws hc hv m =
        max 0 (min 100 (100 - specDeductions ts ds os ws hc hv m))) ∧
    computeScore Status.error Status.good Status.error Status.good false true 90 = 60 := by
  constructor
  · intro ts ds os ws hc hv m
    unfold computeScore specDeductions
    have h1 := status_pair ts 5 15
    have h2 := status_pair ds 5 15
    have h3 := status_pair os 10 15
    have h4 := status_pair ws 10 15
    omega
  · decide

/-- C2: the title verdict status of the analyzer is error iff the
trimmed title length is 0, warning iff it is in [1, 29] or at least 61,
and good iff it is in [30, 60]; the analyzer is a total function, so a
verdict is always produced. -/
theorem title_status_bands (url : String) (input : SEOInput) :
    ((analyzeSEO url input).titleTag.status = Status.error ↔
      (jsTrim input.titleText).length = 0) ∧
    ((analyzeSEO url input).titleTag.status = Status.warning ↔
      (1 ≤ (jsTrim input.titleText).length ∧ (jsTrim input.titleText).length ≤ 29) ∨
        61 ≤ (jsTrim input.titleText).length) ∧
    ((analyzeSEO url input).titleTag.status = Status.good ↔
      30 ≤ (jsTrim input.titleText).length ∧ (jsTrim input.titleText).length ≤ 60) := by
  have h : (analyzeSEO url input).titleTag = titleVerdictOf (jsTrim input.titleText) := rfl
  rw [h]
  simp only [titleVerdictOf]
  split_ifs <;> simp_all <;> omega

/-- C3: the mobile score is the exact weighted sum 40/25/15/10/10 of the
five booleans, equals 100 exactly when all five are true, and the
status bands are good iff score at least 80, warning iff in [50, 80),
error iff below 50. -/
theorem mobile_score_exact_and_bands :
    (∀ hasViewport hasResponsiveDesign hasTouchElements hasFontReadability hasMediaQueries : Bool,
      mobileScoreOf hasViewport hasResponsiveDesign hasTouchElements
          hasFontReadability hasMediaQueries =
        (if hasViewport then 40 else 0) + (if hasResponsiveDesign then 25 else 0) +
        (if hasTouchElements then 15 else 0) + (if hasFontReadability then 10 else 0) +
        (if hasMediaQueries then 10 else 0) ∧
      (mobileScoreOf hasViewport hasResponsiveDesign hasTouchElements
          hasFontReadability hasMediaQueries = 100 ↔
        hasViewport = true ∧ hasResponsiveDesign = true ∧ hasTouchElements = true ∧
          hasFontReadability = true ∧ hasMediaQueries = true)) ∧
    (∀ s : Nat,
      (mobileStatusOf s = Status.good ↔ 80 ≤ s) ∧
      (mobileStatusOf s = Status.warning ↔ 50 ≤ s ∧ s < 80) ∧
      (mobileStatusOf s = Status.error ↔ s < 50)) := by
  constructor
  · decide
  · intro s
    unfold mobileStatusOf
    split_ifs <;> simp_all <;> omega

/-- C6: page speed status is error iff loadTime exceeds 3000 ms,
warning iff it is in (1500, 3000], good iff at most 1500 ms; and when
the pageSpeedData argument is missing the analyzer substitutes the
fixed default (2000 ms, 500 KB, 1 request) and completes with a warning
page speed block. -/
theorem page_speed_bands_and_default :
    (∀ t : Int,
      (pageSpeedStatusOf t = Status.error ↔ 3000 < t) ∧
      (pageSpeedStatusOf t = Status.warning ↔ 1500 < t ∧ t ≤ 3000) ∧
      (pageSpeedStatusOf t = Status.good ↔ t ≤ 1500)) ∧
    (∀ (url : String) (input : SEOInput),
      (analyzeSEO url { input with pageSpeedData := none }).pageSpeed =
        { loadTime := 2000, resourceSize := 500, requestCount := 1,
          status := Status.warning,
          feedback := "Page load time is acceptable but could be improved." }) := by
  constructor
  · intro t
    unfold pageSpeedStatusOf
    split_ifs <;> simp_all <;> omega
  · intro url input
    rfl

/-- C9: the overall score always lies in [5, 100]: the deductions sum
to at most 95, so the lower clamp `max 0` never binds and no result
score below 5 is reachable. -/
theorem score_always_at_least_five :
    (∀ (url : String) (input : SEOInput),
      5 ≤ (analyzeSEO url input).score ∧ (analyzeSEO url input).score ≤ 100) ∧
    (∀ (ts ds os ws : Status) (hc hv : Bool) (m : Nat),
      specDeductions ts ds os ws hc hv m ≤ 95 ∧
      max 0 (min 100 (100 - specDeductions ts ds os ws hc hv m)) =
        min 100 (100 - specDeductions ts ds os ws hc hv m)) := by
  constructor
  · intro url input
    exact computeScore_bounds _ _ _ _ _ _ _
  · intro ts ds os ws hc hv m
    unfold specDeductions
    have h1 := status_facts ts 5 15 (by omega) (by omega) (by omega)
    have h2 := status_facts ds 5 15 (by omega) (by omega) (by omega)
    have h3 := status_facts os 10 15 (by omega) (by omega) (by omega)
    have h4 := status_facts ws 10 15 (by omega) (by omega) (by omega)
    have hp1 := status_pair ts 5 15
    have hp2 := status_pair ds 5 15
    have hp3 := status_pair os 10 15
    have hp4 := status_pair ws 10 15
    have h5 : (0:Int) ≤ (if hc then (0:Int) else 10) ∧ (if hc then (0:Int) else 10) ≤ 10 := by
      rcases hc <;> simp
    have h6 : (0:Int) ≤ (if hv then (0:Int) else 10) ∧ (if hv then (0:Int) else 10) ≤ 10 := by
      rcases hv <;> simp
    omega

/-- C4: the Open Graph status is error iff og:title, og:description and
og:image are all absent (empty after the `|| ''` defaulting), good iff
all three are present, warning otherwise; and changing only og:url or
og:type never changes the OG status of the analyzer result. -/
theorem og_status_rules :
    (∀ ogTitle ogDescription ogImage : String,
      (ogStatusOf ogTitle ogDescription ogImage = Status.error ↔
        ogTitle = "" ∧ ogDescription = "" ∧ ogImage = "") ∧
      (ogStatusOf ogTitle ogDescription ogImage = Status.good ↔
        ogTitle ≠ "" ∧ ogDescription ≠ "" ∧ ogImage ≠ "") ∧
      (ogStatusOf ogTitle ogDescription ogImage = Status.warning ↔
        (ogTitle = "" ∨ ogDescription = "" ∨ ogImage = "") ∧
          ¬(ogTitle = "" ∧ ogDescription = "" ∧ ogImage = ""))) ∧
    (∀ (url : String) (input : SEOInput) (u1 u2 y1 y2 : Option String),
      (analyzeSEO url { input with ogUrl := u1, ogType := y1 }).ogTags.status =
      (analyzeSEO url { input with ogUrl := u2, ogType := y2 }).ogTags.status) := by
  constructor
  · intro t d i
    unfold ogStatusOf
    split_ifs <;> simp_all <;> tauto
  · intro url input u1 u2 y1 y2
    rfl

/-- C7: the meta tag table always has exactly the six rows Title, Meta
Description, Meta Keywords, Canonical URL, Robots Meta, Viewport in
that order; the Title and Description rows reuse the field verdict
status and feedback exactly; keywords present gives warning, absent
error; canonical present good, absent error; robots present good,
absent warning with displayed content defaulting to "index, follow";
viewport present good, absent error (present means a truthy attribute
value, the test the source applies). -/
theorem meta_tag_rows (url : String) (input : SEOInput) :
    ((analyzeSEO url input).metaTags.map MetaTagRow.type =
      ["Title", "Meta Description", "Meta Keywords", "Canonical URL",
        "Robots Meta", "Viewport"]) ∧
    (analyzeSEO url input).metaTags.length = 6 ∧
    ((analyzeSEO url input).metaTags[0]?.map (fun row => (row.status, row.recommendation)) =
      some ((analyzeSEO url input).titleTag.status, (analyzeSEO url input).titleTag.feedback)) ∧
    ((analyzeSEO url input).metaTags[1]?.map (fun row => (row.status, row.recommendation)) =
      some ((analyzeSEO url input).descriptionTag.status,
        (analyzeSEO url input).descriptionTag.feedback)) ∧
    ((analyzeSEO url input).metaTags[2]?.map MetaTagRow.status =
      some (if jsTruthy input.keywords then Status.warning else Status.error)) ∧
    ((analyzeSEO url input).metaTags[3]?.map MetaTagRow.status =
      some (if jsTruthy input.canonical then Status.good else Status.error)) ∧
    ((analyzeSEO url input).metaTags[4]?.map (fun row => (row.status, row.content)) =
      some ((if jsTruthy input.robots then Status.good else Status.warning),
        some (jsOrString input.robots "index, follow"))) ∧
    ((analyzeSEO url input).metaTags[5]?.map MetaTagRow.status =
      some (if jsTruthy input.viewport then Status.good else Status.error)) :=
  ⟨rfl, rfl, rfl, rfl, rfl, rfl, rfl, rfl⟩

/-- The extraction-layer output of the empty document
`<html><head></head><body></body></html>`: empty title text, no meta
or link attributes, no style elements (so every style heuristic is
false), no elements with inline flex or grid styles, no responsive
images, zero meta elements; the page speed data carries the measured
loadTime of 500 ms. -/
def emptyDocInput : SEOInput :=
  { titleText := "", description := none, ogTitle := none, ogDescription := none,
    ogImage := none, ogUrl := none, ogType := none, twitterCard := none,
    twitterTitle := none, twitterDescription := none, twitterImage := none,
    keywords := none, canonical := none, robots := none, viewport := none,
    hasMediaQueries := false, hasTouchElements := false, hasFontReadability := false,
    hasFlexbox := false, hasGrid := false, hasResponsiveImage := false,
    allMetaTags := 0,
    pageSpeedData := some { loadTime := 500, resourceSize := none, requestCount := none } }

/-- C8: analyzing the empty document with loadTime 500 ms yields error
statuses for title, description, Open Graph, Twitter, the canonical row
and the viewport row, mobile score 0 with status error, page speed
good, and overall score exactly 5 (the URL plays no role in any of
these fields). -/
theorem empty_document_scenario :
    (analyzeSEO "https://example.com" emptyDocInput).titleTag.status = Status.error ∧
    (analyzeSEO "https://example.com" emptyDocInput).descriptionTag.status = Status.error ∧
    (analyzeSEO "https://example.com" emptyDocInput).ogTags.status = Status.error ∧
    (analyzeSEO "https://example.com" emptyDocInput).twitterTags.status = Status.error ∧
    ((analyzeSEO "https://example.com" emptyDocInput).metaTags[3]?.map MetaTagRow.status =
      some Status.error) ∧
    ((analyzeSEO "https://example.com" emptyDocInput).metaTags[5]?.map MetaTagRow.status =
      some Status.error) ∧
    (analyzeSEO "https://example.com" emptyDocInput).mobileFriendliness.score = 0 ∧
    (analyzeSEO "https://example.com" emptyDocInput).mobileFriendliness.status = Status.error ∧
    (analyzeSEO "https://example.com" emptyDocInput).pageSpeed.status = Status.good ∧
    (analyzeSEO "https://example.com" emptyDocInput).score = 5 := by
  decide

/-- The ordered gate/title table of the nine recommendation rules, as
the spec lists them: Open Graph, Twitter, canonical, description
length, viewport, responsive design, touch, font readability, page
speed. -/
def recommendationRules (ogStatus twitterStatus : Status) (hasCanonical : Bool)
    (descriptionStatus : Status) (descriptionLength : Nat)
    (hasViewport hasResponsiveDesign hasTouchElements hasFontReadability : Bool)
    (pageSpeedStatus : Status) : List (Bool × String) :=
  [ (decide (ogStatus ≠ Status.good), "Add Open Graph Tags"),
    (decide (twitterStatus ≠ Status.good), "Add Twitter Card Tags"),
    (!hasCanonical, "Add Canonical URL"),
    (decide (descriptionStatus = Status.warning) && decide (descriptionLength < 120),
      "Meta Description Length"),
    (!hasViewport, "Add Viewport Meta Tag"),
    (!hasResponsiveDesign, "Implement Responsive Design"),
    (!hasTouchElements, "Optimize for Touch Devices"),
    (!hasFontReadability, "Improve Font Readability"),
    (decide (pageSpeedStatus ≠ Status.good), "Improve Page Speed") ]

/-- Prepending a conditional singleton is the same as conditionally
consing. -/
theorem ite_singleton_append {α : Type} (c : Prop) [Decidable c] (a : α) (l : List α) :
    (if c then [a] else []) ++ l = if c then a :: l else l := by
  split_ifs <;> simp

/-- Appending distributes over a conditional list. -/
theorem ite_append_distrib {α : Type} (c : Prop) [Decidable c] (a b l : List α) :
    (if c then a else b) ++ l = if c then a ++ l else b ++ l := by
  split_ifs <;> simp

/-- C5: the recommendation list is the evaluation of the nine gated
rules in fixed order; its titles are exactly the titles of the rules
whose gate fires, its length is the number of firing gates, no title
appears twice, and when no gate fires the list is empty. -/
theorem recommendations_nine_gates (og tw : Status) (hc : Bool) (ds : Status)
    (dl : Nat) (hv hr ht hf : Bool) (ps : Status) :
    ((buildRecommendations og tw hc ds dl hv hr ht hf ps).map Recommendation.title =
      ((recommendationRules og tw hc ds dl hv hr ht hf ps).filter Prod.fst).map
        Prod.snd) ∧
    (buildRecommendations og tw hc ds dl hv hr ht hf ps).length =
      (recommendationRules og tw hc ds dl hv hr ht hf ps).countP Prod.fst ∧
    ((buildRecommendations og tw hc ds dl hv hr ht hf ps).map
      Recommendation.title).Nodup ∧
    ((∀ p ∈ recommendationRules og tw hc ds dl hv hr ht hf ps, p.fst = false) →
      buildRecommendations og tw hc ds dl hv hr ht hf ps = []) := by
  have h1 : (buildRecommendations og tw hc ds dl hv hr ht hf ps).map
      Recommendation.title =
      ((recommendationRules og tw hc ds dl hv hr ht hf ps).filter Prod.fst).map
        Prod.snd := by
    simp only [buildRecommendations, recommendationRules, List.filter_cons,
      List.filter_nil, List.map_append, List.map_cons, List.map_nil,
      List.append_assoc, List.cons_append, List.nil_append, List.singleton_append,
      decide_eq_true_eq, Bool.and_eq_true, Bool.not_eq_true',
      apply_ite (List.map Recommendation.title), ite_singleton_append,
      ite_append_distrib,
      recOpenGraph, recTwitter, recCanonical, recDescriptionLength, recViewport,
      recResponsiveDesign, recTouch, recFontReadability, recPageSpeed,
      apply_ite (List.map Prod.snd)]
  have hnodup : ((recommendationRules og tw hc ds dl hv hr ht hf ps).map
      Prod.snd).Nodup := by
    have he : (recommendationRules og tw hc ds dl hv hr ht hf ps).map Prod.snd =
        ["Add Open Graph Tags", "Add Twitter Card Tags", "Add Canonical URL",
          "Meta Description Length", "Add Viewport Meta Tag",
          "Implement Responsive Design", "Optimize for Touch Devices",
          "Improve Font Readability", "Improve Page Speed"] := rfl
    rw [he]
    decide
  have h2 : (buildRecommendations og tw hc ds dl hv hr ht hf ps).length =
      (recommendationRules og tw hc ds dl hv hr ht hf ps).countP Prod.fst := by
    have := congrArg List.length h1
    simpa [List.countP_eq_length_filter] using this
  refine ⟨h1, h2, ?_, ?_⟩
  · rw [h1]
    exact hnodup.sublist ((List.filter_sublist _).map Prod.snd)
  · intro hall
    have hz : (recommendationRules og tw hc ds dl hv hr ht hf ps).countP Prod.fst = 0 := by
      refine List.countP_eq_zero.mpr ?_
      intro p hp
      simp [hall p hp]
    rw [hz] at h2
    exact List.length_eq_zero.mp h2

/-- Witness for the all-gates-off case of the gated recommendation
rules: with every gate off the recommendation list is empty. -/
theorem recommendations_nine_gates_witness :
    buildRecommendations Status.good Status.good true Status.good 150 true true
      true true Status.good = [] :=
  (recommendations_nine_gates Status.good Status.good true Status.good 150 true
    true true true Status.good).2.2.2 (by decide)

/-- Membership of the page speed recommendation in the generated list
whenever the page speed status is not good. -/
theorem recPageSpeed_mem (og tw : Status) (hc : Bool) (ds : Status) (dl : Nat)
    (hv hr ht hf : Bool) (ps : Status) (hps : ps ≠ Status.good) :
    recPageSpeed ps ∈ buildRecommendations og tw hc ds dl hv hr ht hf ps := by
  unfold buildRecommendations
  simp [hps]

/-- C10: when the pageSpeedData argument is missing, the substituted
default loadTime of 2000 ms is classified warning, so the result's page
speed status is warning and the "Improve Page Speed" recommendation is
always present in the recommendation list. -/
theorem missing_pagespeed_warning (url : String) (input : SEOInput) :
    (analyzeSEO url { input with pageSpeedData := none }).pageSpeed.status =
      Status.warning ∧
    "Improve Page Speed" ∈
      (analyzeSEO url { input with pageSpeedData := none }).recommendations.map
        Recommendation.title := by
  refine ⟨rfl, List.mem_map.mpr ⟨recPageSpeed Status.warning, ?_, rfl⟩⟩
  exact recPageSpeed_mem _ _ _ _ _ _ _ _ _ Status.warning (by decide)

end SeoScanner
